import Mathlib

/-!
Basic and LF daughterboards: property dispatch.

A shallow embedding of `host/lib/usrp/dboard/db_basic_and_lf.cpp`:
the classes `basic_rx` and `basic_tx`, their `rx_get`/`rx_set` and
`tx_get`/`tx_set` members, the four factory functions and the static
registration block.

Conventions of the embedding.

* A C++ `float` / `double` is its IEEE-754 binary32 / binary64 bit pattern,
  split in the three fields sign, biased exponent and fraction.  The only
  floating point operations of the file are unary plus, unary minus and
  `==`, all of which are exact on bit patterns.
* A `wax::obj` is a sum over the value shapes that travel through the
  dispatch.  `as<T>()` is a cast that fails with `bad_cast`.
* A member function that may throw returns `Except exception _`.
  `rx_get` / `tx_get` take the previous content of the output reference
  `val` and return its content after the call; `rx_set` / `tx_set` return
  the outcome together with the object after the call.
-/

namespace uhd

/-! Machine floating point -/

/-- IEEE-754 binary32 value, the C++ type `float`, as its bit fields. -/
structure float where
  sign : Bool
  exponent : Fin 256
  fraction : Fin 8388608
  deriving DecidableEq, Repr

/-- IEEE-754 binary64 value, the C++ type `double`, as its bit fields. -/
structure double where
  sign : Bool
  exponent : Fin 2048
  fraction : Fin 4503599627370496
  deriving DecidableEq, Repr

namespace float

/-- The C++ expression `float(0)`: positive zero. -/
def zero : float := ⟨false, 0, 0⟩

/-- Not-a-number test: all exponent bits set and a nonzero fraction. -/
def isNaN (x : float) : Bool := x.exponent == 255 && x.fraction != 0

/-- Zero test: both signed zeros. -/
def isZero (x : float) : Bool := x.exponent == 0 && x.fraction == 0

/-- The C++ operator `==` on `float`: a NaN equals nothing, the two zeros
are equal, any other two values are equal when their bits are. -/
def eq (x y : float) : Bool :=
  if x.isNaN || y.isNaN then false
  else if x.isZero && y.isZero then true
  else decide (x = y)

/-- The rational number a finite `float` stands for; `none` for the
infinities and NaN. -/
def toRat? (x : float) : Option ℚ :=
  if x.exponent.val = 255 then none
  else
    let m : ℚ :=
      if x.exponent.val = 0 then (x.fraction.val : ℚ) * (2 : ℚ) ^ (-149 : ℤ)
      else ((8388608 + x.fraction.val : ℕ) : ℚ) * (2 : ℚ) ^ ((x.exponent.val : ℤ) - 150)
    some (if x.sign then -m else m)

end float

namespace double

/-- The C++ expression `double(0)`: positive zero. -/
def zero : double := ⟨false, 0, 0⟩

/-- Unary minus: flips the sign bit. -/
def neg (x : double) : double := { x with sign := !x.sign }

/-- Unary plus: the identity. -/
def pos (x : double) : double := x

/-- Not-a-number test: all exponent bits set and a nonzero fraction. -/
def isNaN (x : double) : Bool := x.exponent == 2047 && x.fraction != 0

/-- Zero test: both signed zeros. -/
def isZero (x : double) : Bool := x.exponent == 0 && x.fraction == 0

/-- The rational number a finite `double` stands for; `none` for the
infinities and NaN. -/
def toRat? (x : double) : Option ℚ :=
  if x.exponent.val = 2047 then none
  else
    let m : ℚ :=
      if x.exponent.val = 0 then (x.fraction.val : ℚ) * (2 : ℚ) ^ (-1074 : ℤ)
      else ((4503599627370496 + x.fraction.val : ℕ) : ℚ)
             * (2 : ℚ) ^ ((x.exponent.val : ℤ) - 1075)
    some (if x.sign then -m else m)

/-- The C++ operator `==` on `double`: a NaN equals nothing, the two zeros
are equal, any other two values are equal when their bits are. -/
def eq (x y : double) : Bool :=
  if x.isNaN || y.isNaN then false
  else if x.isZero && y.isZero then true
  else decide (x = y)

/-- The C++ operator `<` on `double`: false when an operand is NaN; two
finite operands compare as the numbers they stand for; minus infinity is
below and plus infinity above every finite value. -/
def lt (x y : double) : Bool :=
  if x.isNaN || y.isNaN then false
  else match x.toRat?, y.toRat? with
    | some a, some b => decide (a < b)
    | some _, none => !y.sign
    | none, some _ => x.sign
    | none, none => x.sign && !y.sign

/-- The C++ operator `<=` on `double`, with the conventions of `lt`. -/
def le (x y : double) : Bool :=
  if x.isNaN || y.isNaN then false
  else match x.toRat?, y.toRat? with
    | some a, some b => decide (a ≤ b)
    | some _, none => !y.sign
    | none, some _ => x.sign
    | none, none => x.sign || !y.sign

/-- The literal `90e9`: 87890625 * 2^10, biased exponent 1023 + 36. -/
def lit_90e9 : double := ⟨false, 1059, 1394640372629504⟩

/-- The literal `32e6`: 15625 * 2^11, biased exponent 1023 + 24. -/
def lit_32e6 : double := ⟨false, 1047, 4086334964629504⟩

end double

/-! The host framework types the file consumes -/

/-- The exceptions that leave the four dispatch members. -/
inductive exception where
  /-- Thrown by `ASSERT_THROW`; `what` is the text of the failed expression. -/
  | assert_error (what : String)
  /-- The exception `std::runtime_error` with its message. -/
  | runtime_error (what : String)
  /-- Thrown by `wax::obj::as<T>()` when the object holds another type. -/
  | bad_cast
  deriving DecidableEq, Repr

/-- Modelled from the spec: the enumeration `subdev_prop_t` of
`uhd/usrp/subdev_props.hpp`, a header this translation unit only includes.  The
thirteen enumerators are the thirteen keys of the closed enumeration;
`unlisted raw` is an object of the enumeration type whose value is none of
the enumerators. -/
inductive subdev_prop_t where
  | SUBDEV_PROP_NAME
  | SUBDEV_PROP_OTHERS
  | SUBDEV_PROP_GAIN
  | SUBDEV_PROP_GAIN_RANGE
  | SUBDEV_PROP_GAIN_NAMES
  | SUBDEV_PROP_FREQ
  | SUBDEV_PROP_FREQ_RANGE
  | SUBDEV_PROP_ANTENNA
  | SUBDEV_PROP_ANTENNA_NAMES
  | SUBDEV_PROP_QUADRATURE
  | SUBDEV_PROP_IQ_SWAPPED
  | SUBDEV_PROP_SPECTRUM_INVERTED
  | SUBDEV_PROP_USE_LO_OFFSET
  | unlisted (raw : Nat)
  deriving DecidableEq, Repr

open subdev_prop_t

/-- The thirteen enumerators, in the order of the switch of `rx_get`. -/
def subdev_prop_t.enumerators : List subdev_prop_t :=
  [SUBDEV_PROP_NAME, SUBDEV_PROP_OTHERS, SUBDEV_PROP_GAIN, SUBDEV_PROP_GAIN_RANGE,
   SUBDEV_PROP_GAIN_NAMES, SUBDEV_PROP_FREQ, SUBDEV_PROP_FREQ_RANGE, SUBDEV_PROP_ANTENNA,
   SUBDEV_PROP_ANTENNA_NAMES, SUBDEV_PROP_QUADRATURE, SUBDEV_PROP_IQ_SWAPPED,
   SUBDEV_PROP_SPECTRUM_INVERTED, SUBDEV_PROP_USE_LO_OFFSET]

/-- Modelled from the spec: `gain_range_t` of `uhd/types/ranges.hpp`, a range
of `float` with a minimum, a maximum and a step.  `gain_range_t(0, 0, 0)`
fills the three fields with the three arguments, all zero in this file. -/
structure gain_range_t where
  min : float
  max : float
  step : float
  deriving DecidableEq, Repr

/-- Modelled from the spec: `freq_range_t` of `uhd/types/ranges.hpp`, a range
of `double`; the constructor `freq_range_t(min, max)` stores its first
argument as the minimum and its second as the maximum. -/
structure freq_range_t where
  min : double
  max : double
  deriving DecidableEq, Repr

/-- The type `prop_names_t`: a vector of strings. -/
abbrev prop_names_t := List String

/-- The type `dboard_id_t`: the numeric hardware identifier. -/
abbrev dboard_id_t := Nat

namespace wax

/-- Modelled from the spec: the dynamically typed `wax::obj`, as a sum over
the value shapes used by this dispatch (string, float, double, bool, the two
ranges, a vector of names), the property key, the key paired with a
sub-device name (`named_prop_t`), and the empty object. -/
inductive obj where
  | empty
  | string (s : String)
  | float (x : uhd.float)
  | double (x : uhd.double)
  | bool (b : Bool)
  | gain_range (r : gain_range_t)
  | freq_range (r : freq_range_t)
  | prop_names (l : prop_names_t)
  | subdev_prop (k : subdev_prop_t)
  | named_prop (key : obj) (name : String)
  deriving DecidableEq, Repr

namespace obj

/-- The cast `as<subdev_prop_t>()`. -/
def as_subdev_prop_t : obj → Except exception subdev_prop_t
  | subdev_prop k => .ok k
  | _ => .error .bad_cast

/-- The cast `as<float>()`. -/
def as_float : obj → Except exception uhd.float
  | float x => .ok x
  | _ => .error .bad_cast

/-- The cast `as<std::string>()`. -/
def as_string : obj → Except exception String
  | string s => .ok s
  | _ => .error .bad_cast

end obj

end wax

/-- Modelled from the spec: `extract_named_prop`, which decodes a key with an
optional name into the pair (key, name); a key that carries no name is
returned as it is, with the empty name. -/
def extract_named_prop : wax.obj → wax.obj × String
  | .named_prop key name => (key, name)
  | key => (key, "")

/-- Modelled from the spec: `ASSERT_THROW(x)`, the hard assertion, which
throws when the condition is false; `text` is the asserted expression. -/
def ASSERT_THROW (text : String) (cond : Bool) : Except exception Unit :=
  if cond then .ok () else .error (.assert_error text)

/-- The request a caller sends: the property key, alone or paired with a
sub-device name. -/
def request (k : subdev_prop_t) : Option String → wax.obj
  | none => .subdev_prop k
  | some name => .named_prop (.subdev_prop k) name

/-- The constructor arguments `dboard_base::ctor_args_t` that the members
read back through `get_subdev_name`, `get_rx_id` and `get_tx_id`: the
sub-device name and the two hardware identifiers. -/
structure ctor_args_t where
  subdev_name : String
  rx_id : dboard_id_t
  tx_id : dboard_id_t
  deriving DecidableEq, Repr

/-! The two classes -/

/-- The class `basic_rx`: the base class `rx_dboard_base(args)` and the
private member `_max_freq`. -/
structure basic_rx where
  args : ctor_args_t
  _max_freq : double
  deriving DecidableEq, Repr

/-- The class `basic_tx`: the base class `tx_dboard_base(args)` and the
private member `_max_freq`. -/
structure basic_tx where
  args : ctor_args_t
  _max_freq : double
  deriving DecidableEq, Repr

namespace basic_rx

/-- The constructor `basic_rx::basic_rx(args, max_freq)`. -/
def mk_ctor (args : ctor_args_t) (max_freq : double) : basic_rx :=
  { args := args, _max_freq := max_freq }

/-- The base class accessor `get_subdev_name()`. -/
def get_subdev_name (self : basic_rx) : String := self.args.subdev_name

/-- The base class accessor `get_rx_id()`. -/
def get_rx_id (self : basic_rx) : dboard_id_t := self.args.rx_id

/-- The member `basic_rx::rx_get(key_, val)`.  `to_string` is the consumed
`dboard_id::to_string`; the argument `val` is the content of the output
reference before the call and the result is its content after the call. -/
def rx_get (to_string : dboard_id_t → String) (self : basic_rx)
    (key_ : wax.obj) (val : wax.obj) : Except exception wax.obj :=
  let (key, _name) := extract_named_prop key_
  do
    let k ← key.as_subdev_prop_t
    match k with
    | SUBDEV_PROP_NAME =>
        pure (.string (to_string self.get_rx_id ++ " - " ++ self.get_subdev_name))
    | SUBDEV_PROP_OTHERS => pure (.prop_names [])
    | SUBDEV_PROP_GAIN => pure (.float float.zero)
    | SUBDEV_PROP_GAIN_RANGE => pure (.gain_range ⟨float.zero, float.zero, float.zero⟩)
    | SUBDEV_PROP_GAIN_NAMES => pure (.prop_names [])
    | SUBDEV_PROP_FREQ => pure (.double double.zero)
    | SUBDEV_PROP_FREQ_RANGE =>
        pure (.freq_range ⟨self._max_freq.pos, self._max_freq.neg⟩)
    | SUBDEV_PROP_ANTENNA => pure (.string "")
    | SUBDEV_PROP_ANTENNA_NAMES => pure (.prop_names (List.replicate 1 ""))
    | SUBDEV_PROP_QUADRATURE => pure (.bool (self.get_subdev_name == "AB"))
    | SUBDEV_PROP_IQ_SWAPPED => pure (.bool false)
    | SUBDEV_PROP_SPECTRUM_INVERTED => pure (.bool false)
    | SUBDEV_PROP_USE_LO_OFFSET => pure (.bool false)
    | unlisted _ => pure val

/-- The member `basic_rx::rx_set(key_, val)`: the outcome of the call and
the object after it (no member is assigned). -/
def rx_set (to_string : dboard_id_t → String) (self : basic_rx)
    (key_ : wax.obj) (val : wax.obj) : Except exception Unit × basic_rx :=
  let (key, _name) := extract_named_prop key_
  let outcome : Except exception Unit := do
    let k ← key.as_subdev_prop_t
    match k with
    | SUBDEV_PROP_GAIN =>
        let x ← val.as_float
        ASSERT_THROW "val.as<float>() == float(0)" (float.eq x float.zero)
    | SUBDEV_PROP_ANTENNA =>
        let s ← val.as_string
        ASSERT_THROW "val.as<std::string>() == std::string(\"\")" (s == "")
    | SUBDEV_PROP_FREQ => pure ()
    | _ =>
        throw (.runtime_error
          ("Error: trying to set read-only property on " ++ to_string self.get_rx_id
            ++ " subdev"))
  (outcome, self)

end basic_rx

namespace basic_tx

/-- The constructor `basic_tx::basic_tx(args, max_freq)`. -/
def mk_ctor (args : ctor_args_t) (max_freq : double) : basic_tx :=
  { args := args, _max_freq := max_freq }

/-- The base class accessor `get_tx_id()`. -/
def get_tx_id (self : basic_tx) : dboard_id_t := self.args.tx_id

/-- The member `basic_tx::tx_get(key_, val)`, with the conventions of
`basic_rx.rx_get`. -/
def tx_get (to_string : dboard_id_t → String) (self : basic_tx)
    (key_ : wax.obj) (val : wax.obj) : Except exception wax.obj :=
  let (key, _name) := extract_named_prop key_
  do
    let k ← key.as_subdev_prop_t
    match k with
    | SUBDEV_PROP_NAME => pure (.string (to_string self.get_tx_id))
    | SUBDEV_PROP_OTHERS => pure (.prop_names [])
    | SUBDEV_PROP_GAIN => pure (.float float.zero)
    | SUBDEV_PROP_GAIN_RANGE => pure (.gain_range ⟨float.zero, float.zero, float.zero⟩)
    | SUBDEV_PROP_GAIN_NAMES => pure (.prop_names [])
    | SUBDEV_PROP_FREQ => pure (.double double.zero)
    | SUBDEV_PROP_FREQ_RANGE =>
        pure (.freq_range ⟨self._max_freq.pos, self._max_freq.neg⟩)
    | SUBDEV_PROP_ANTENNA => pure (.string "")
    | SUBDEV_PROP_ANTENNA_NAMES => pure (.prop_names (List.replicate 1 ""))
    | SUBDEV_PROP_QUADRATURE => pure (.bool true)
    | SUBDEV_PROP_IQ_SWAPPED => pure (.bool false)
    | SUBDEV_PROP_SPECTRUM_INVERTED => pure (.bool false)
    | SUBDEV_PROP_USE_LO_OFFSET => pure (.bool false)
    | unlisted _ => pure val

/-- The member `basic_tx::tx_set(key_, val)`, with the conventions of
`basic_rx.rx_set`. -/
def tx_set (to_string : dboard_id_t → String) (self : basic_tx)
    (key_ : wax.obj) (val : wax.obj) : Except exception Unit × basic_tx :=
  let (key, _name) := extract_named_prop key_
  let outcome : Except exception Unit := do
    let k ← key.as_subdev_prop_t
    match k with
    | SUBDEV_PROP_GAIN =>
        let x ← val.as_float
        ASSERT_THROW "val.as<float>() == float(0)" (float.eq x float.zero)
    | SUBDEV_PROP_ANTENNA =>
        let s ← val.as_string
        ASSERT_THROW "val.as<std::string>() == std::string(\"\")" (s == "")
    | SUBDEV_PROP_FREQ => pure ()
    | _ =>
        throw (.runtime_error
          ("Error: trying to set read-only property on " ++ to_string self.get_tx_id
            ++ " subdev"))
  (outcome, self)

end basic_tx

/-! Factories and registration -/

/-- The object behind a `dboard_base::sptr` made in this file: its dynamic
type is one of the two classes. -/
inductive dboard_base where
  | rx (board : basic_rx)
  | tx (board : basic_tx)
  deriving DecidableEq, Repr

/-- The Get of a provider: `rx_get` on a receive board and `tx_get` on a
transmit board. -/
def dboard_base.get (to_string : dboard_id_t → String) :
    dboard_base → wax.obj → wax.obj → Except exception wax.obj
  | .rx board, key_, val => board.rx_get to_string key_ val
  | .tx board, key_, val => board.tx_get to_string key_ val

/-- The Set of a provider: `rx_set` on a receive board and `tx_set` on a
transmit board. -/
def dboard_base.set (to_string : dboard_id_t → String) :
    dboard_base → wax.obj → wax.obj → Except exception Unit × dboard_base
  | .rx board, key_, val =>
      ((board.rx_set to_string key_ val).1, .rx (board.rx_set to_string key_ val).2)
  | .tx board, key_, val =>
      ((board.tx_set to_string key_ val).1, .tx (board.tx_set to_string key_ val).2)

/-- A finite sequence of Set calls on a provider, each given by its key and
its value, issued one after the other; a call that throws leaves the object
as the call left it and the next call is issued on it. -/
def dboard_base.set_all (to_string : dboard_id_t → String) :
    dboard_base → List (wax.obj × wax.obj) → dboard_base
  | board, [] => board
  | board, (key_, val) :: rest =>
      dboard_base.set_all to_string (board.set to_string key_ val).2 rest

/-- The factory `make_basic_rx`. -/
def make_basic_rx (args : ctor_args_t) : dboard_base :=
  .rx (basic_rx.mk_ctor args double.lit_90e9)

/-- The factory `make_basic_tx`. -/
def make_basic_tx (args : ctor_args_t) : dboard_base :=
  .tx (basic_tx.mk_ctor args double.lit_90e9)

/-- The factory `make_lf_rx`. -/
def make_lf_rx (args : ctor_args_t) : dboard_base :=
  .rx (basic_rx.mk_ctor args double.lit_32e6)

/-- The factory `make_lf_tx`. -/
def make_lf_tx (args : ctor_args_t) : dboard_base :=
  .tx (basic_tx.mk_ctor args double.lit_32e6)

namespace dboard_manager

/-- One row of the registration table: the factory, the display name and
the declared sub-device names (`none` when the call passes no list). -/
structure entry where
  ctor : ctor_args_t → dboard_base
  name : String
  subdev_names : Option prop_names_t

/-- The registration table: rows keyed by hardware identifier. -/
abbrev registry := List (dboard_id_t × entry)

/-- Modelled from the spec: `dboard_manager::register_dboard`, which adds
the row (hardware id, factory, display name, optional sub-device names) to
the registration table. -/
def register_dboard (id : dboard_id_t) (ctor : ctor_args_t → dboard_base)
    (name : String) (subdev_names : Option prop_names_t) (table : registry) : registry :=
  table ++ [(id, ⟨ctor, name, subdev_names⟩)]

end dboard_manager

open dboard_manager in
/-- The static block `reg_basic_and_lf_dboards`: the table after its four
registrations, starting from the empty table. -/
def reg_basic_and_lf_dboards : dboard_manager.registry :=
  register_dboard 0x000f make_lf_rx "LF RX" (some ["AB", "A", "B"])
    (register_dboard 0x000e make_lf_tx "LF TX" none
      (register_dboard 0x0001 make_basic_rx "Basic RX" (some ["AB", "A", "B"])
        (register_dboard 0x0000 make_basic_tx "Basic TX" none [])))

/-- The provider the table builds for a hardware id from the constructor
arguments; `none` when the id is not registered. -/
def make_registered (id : dboard_id_t) (args : ctor_args_t) : Option dboard_base :=
  (reg_basic_and_lf_dboards.lookup id).map (fun row => row.ctor args)

/-! Lemmas on the floating point model -/

theorem double.toRat_lit_90e9 : double.lit_90e9.toRat? = some 90000000000 := by
  have h1 : ((1059 : Fin 2048) : ℕ) = 1059 := rfl
  have h2 : ((1394640372629504 : Fin 4503599627370496) : ℕ) = 1394640372629504 := rfl
  simp only [double.toRat?, double.lit_90e9, h1, h2]
  norm_num

theorem double.toRat_neg_lit_90e9 :
    double.lit_90e9.neg.toRat? = some (-90000000000) := by
  have h1 : ((1059 : Fin 2048) : ℕ) = 1059 := rfl
  have h2 : ((1394640372629504 : Fin 4503599627370496) : ℕ) = 1394640372629504 := rfl
  simp only [double.toRat?, double.lit_90e9, double.neg, h1, h2]
  norm_num

theorem double.toRat_lit_32e6 : double.lit_32e6.toRat? = some 32000000 := by
  have h1 : ((1047 : Fin 2048) : ℕ) = 1047 := rfl
  have h2 : ((4086334964629504 : Fin 4503599627370496) : ℕ) = 4086334964629504 := rfl
  simp only [double.toRat?, double.lit_32e6, h1, h2]
  norm_num

theorem double.toRat_neg_lit_32e6 :
    double.lit_32e6.neg.toRat? = some (-32000000) := by
  have h1 : ((1047 : Fin 2048) : ℕ) = 1047 := rfl
  have h2 : ((4086334964629504 : Fin 4503599627370496) : ℕ) = 4086334964629504 := rfl
  simp only [double.toRat?, double.lit_32e6, double.neg, h1, h2]
  norm_num

theorem double.toRat_double_zero : double.zero.toRat? = some 0 := by
  simp [double.toRat?, double.zero]

theorem float.toRat_float_zero : float.zero.toRat? = some 0 := by
  simp [float.toRat?, float.zero]

/-- Comparing with `float(0)` by `==` is the zero test on the bit fields. -/
theorem float.eq_zero (x : float) : float.eq x float.zero = x.isZero := by
  obtain ⟨s, e, f⟩ := x
  by_cases he : e = 0
  · by_cases hf : f = 0
    · subst he; subst hf
      simp [float.eq, float.isNaN, float.isZero, float.zero]
    · subst he
      simp [float.eq, float.isNaN, float.isZero, float.zero, hf]
  · simp [float.eq, float.isNaN, float.isZero, float.zero, he]

/-- A `float` stands for the number zero exactly when it is a signed zero. -/
theorem float.toRat_eq_zero_iff (x : float) :
    x.toRat? = some 0 ↔ x.isZero = true := by
  obtain ⟨s, e, f⟩ := x
  have hpow : ∀ z : ℤ, (2 : ℚ) ^ z ≠ 0 := fun z => zpow_ne_zero z (by norm_num)
  by_cases h255 : e.val = 255
  · have he : e ≠ 0 := by
      intro h; rw [h] at h255; simp at h255
    simp [float.toRat?, float.isZero, h255, he]
  · by_cases he : e = 0
    · subst he
      have hf : ((f.val : ℚ) = 0) ↔ f = 0 := by
        rw [Nat.cast_eq_zero]
        exact ⟨fun h => Fin.ext h, fun h => by rw [h]; rfl⟩
      cases s <;> simp [float.toRat?, float.isZero, hpow, hf]
    · have hv : e.val ≠ 0 := fun h => he (Fin.ext h)
      have hm : (8388608 : ℚ) + (f.val : ℚ) ≠ 0 := by positivity
      cases s <;> simp [float.toRat?, float.isZero, h255, he, hv, hpow, hm]

/-- The comparison `x == float(0)` holds exactly when `x` stands for zero. -/
theorem float.eq_zero_iff_toRat (x : float) :
    float.eq x float.zero = true ↔ x.toRat? = some 0 := by
  rw [float.eq_zero, float.toRat_eq_zero_iff]

/-! Lemmas on the dispatch -/

/-- Decoding a request gives back its key and the name, empty when absent. -/
theorem extract_named_prop_request (k : subdev_prop_t) (name : Option String) :
    extract_named_prop (request k name) = (.subdev_prop k, name.getD "") := by
  cases name <;> rfl

/-- The outcome of `rx_set` as a function of the decoded key. -/
theorem basic_rx.rx_set_request (to_string : dboard_id_t → String) (self : basic_rx)
    (k : subdev_prop_t) (name : Option String) (val : wax.obj) :
    self.rx_set to_string (request k name) val
      = self.rx_set to_string (.subdev_prop k) val := by
  cases name <;> rfl

/-- The outcome of `tx_set` as a function of the decoded key. -/
theorem basic_tx.tx_set_request (to_string : dboard_id_t → String) (self : basic_tx)
    (k : subdev_prop_t) (name : Option String) (val : wax.obj) :
    self.tx_set to_string (request k name) val
      = self.tx_set to_string (.subdev_prop k) val := by
  cases name <;> rfl

/-- The result of `rx_get` as a function of the decoded key. -/
theorem basic_rx.rx_get_request (to_string : dboard_id_t → String) (self : basic_rx)
    (k : subdev_prop_t) (name : Option String) (val : wax.obj) :
    self.rx_get to_string (request k name) val
      = self.rx_get to_string (.subdev_prop k) val := by
  cases name <;> rfl

/-- The result of `tx_get` as a function of the decoded key. -/
theorem basic_tx.tx_get_request (to_string : dboard_id_t → String) (self : basic_tx)
    (k : subdev_prop_t) (name : Option String) (val : wax.obj) :
    self.tx_get to_string (request k name) val
      = self.tx_get to_string (.subdev_prop k) val := by
  cases name <;> rfl

/-- When `rx_set` throws a runtime error: exactly on the default branch of
its switch, with the read-only message. -/
theorem basic_rx.rx_set_runtime_error_iff (to_string : dboard_id_t → String)
    (self : basic_rx) (k : subdev_prop_t) (v : wax.obj) (msg : String) :
    (self.rx_set to_string (.subdev_prop k) v).1 = .error (.runtime_error msg)
      ↔ (k ≠ SUBDEV_PROP_GAIN ∧ k ≠ SUBDEV_PROP_ANTENNA ∧ k ≠ SUBDEV_PROP_FREQ)
          ∧ msg = "Error: trying to set read-only property on "
                    ++ to_string self.get_rx_id ++ " subdev" := by
  cases k
  case SUBDEV_PROP_GAIN =>
    cases v <;> simp [basic_rx.rx_set, extract_named_prop, wax.obj.as_subdev_prop_t,
      wax.obj.as_float, ASSERT_THROW, bind, Except.bind]
    split <;> simp
  case SUBDEV_PROP_ANTENNA =>
    cases v <;> simp [basic_rx.rx_set, extract_named_prop, wax.obj.as_subdev_prop_t,
      wax.obj.as_string, ASSERT_THROW, bind, Except.bind]
    split <;> simp
  case SUBDEV_PROP_FREQ =>
    simp [basic_rx.rx_set, extract_named_prop, wax.obj.as_subdev_prop_t, bind, Except.bind,
      pure, Except.pure]
  all_goals
    simp [basic_rx.rx_set, extract_named_prop, wax.obj.as_subdev_prop_t, bind, Except.bind,
      throw, throwThe, MonadExceptOf.throw]
    exact eq_comm

/-- When `tx_set` throws a runtime error: exactly on the default branch of
its switch, with the read-only message. -/
theorem basic_tx.tx_set_runtime_error_iff (to_string : dboard_id_t → String)
    (self : basic_tx) (k : subdev_prop_t) (v : wax.obj) (msg : String) :
    (self.tx_set to_string (.subdev_prop k) v).1 = .error (.runtime_error msg)
      ↔ (k ≠ SUBDEV_PROP_GAIN ∧ k ≠ SUBDEV_PROP_ANTENNA ∧ k ≠ SUBDEV_PROP_FREQ)
          ∧ msg = "Error: trying to set read-only property on "
                    ++ to_string self.get_tx_id ++ " subdev" := by
  cases k
  case SUBDEV_PROP_GAIN =>
    cases v <;> simp [basic_tx.tx_set, extract_named_prop, wax.obj.as_subdev_prop_t,
      wax.obj.as_float, ASSERT_THROW, bind, Except.bind]
    split <;> simp
  case SUBDEV_PROP_ANTENNA =>
    cases v <;> simp [basic_tx.tx_set, extract_named_prop, wax.obj.as_subdev_prop_t,
      wax.obj.as_string, ASSERT_THROW, bind, Except.bind]
    split <;> simp
  case SUBDEV_PROP_FREQ =>
    simp [basic_tx.tx_set, extract_named_prop, wax.obj.as_subdev_prop_t, bind, Except.bind,
      pure, Except.pure]
  all_goals
    simp [basic_tx.tx_set, extract_named_prop, wax.obj.as_subdev_prop_t, bind, Except.bind,
      throw, throwThe, MonadExceptOf.throw]
    exact eq_comm

/-! The claims -/

/-- C1: for each of the four registered hardware ids (0x0000 basic transmit,
0x0001 basic receive, 0x000e low-frequency transmit, 0x000f low-frequency
receive) the provider built by the registered factory answers
Get(frequency-range) with the range whose minimum is +ceiling and whose
maximum is -ceiling, the ceiling being the double 90e9 for the two basic
ids and the double 32e6 for the two low-frequency ids; the four endpoints
stand for the numbers 90000000000, -90000000000, 32000000 and -32000000. -/
theorem C1_registered_freq_range (to_string : dboard_id_t → String)
    (args : ctor_args_t) (name : Option String) (val : wax.obj) :
    (make_registered 0x0000 args = some (make_basic_tx args)
      ∧ (make_basic_tx args).get to_string (request SUBDEV_PROP_FREQ_RANGE name) val
          = .ok (.freq_range { min := double.lit_90e9, max := double.lit_90e9.neg }))
    ∧ (make_registered 0x0001 args = some (make_basic_rx args)
      ∧ (make_basic_rx args).get to_string (request SUBDEV_PROP_FREQ_RANGE name) val
          = .ok (.freq_range { min := double.lit_90e9, max := double.lit_90e9.neg }))
    ∧ (make_registered 0x000e args = some (make_lf_tx args)
      ∧ (make_lf_tx args).get to_string (request SUBDEV_PROP_FREQ_RANGE name) val
          = .ok (.freq_range { min := double.lit_32e6, max := double.lit_32e6.neg }))
    ∧ (make_registered 0x000f args = some (make_lf_rx args)
      ∧ (make_lf_rx args).get to_string (request SUBDEV_PROP_FREQ_RANGE name) val
          = .ok (.freq_range { min := double.lit_32e6, max := double.lit_32e6.neg }))
    ∧ double.lit_90e9.toRat? = some 90000000000
    ∧ double.lit_90e9.neg.toRat? = some (-90000000000)
    ∧ double.lit_32e6.toRat? = some 32000000
    ∧ double.lit_32e6.neg.toRat? = some (-32000000) := by
  refine ⟨⟨rfl, ?_⟩, ⟨rfl, ?_⟩, ⟨rfl, ?_⟩, ⟨rfl, ?_⟩, double.toRat_lit_90e9,
    double.toRat_neg_lit_90e9, double.toRat_lit_32e6, double.toRat_neg_lit_32e6⟩
  all_goals cases name <;> rfl

/-- C2: on a receive provider constructed with sub-device name `s`, whatever
the ceiling, Get(quadrature-flag) returns a boolean that is true if and only
if `s` equals "AB"; for the names "A" and "B" it returns false. -/
theorem C2_rx_quadrature_iff_AB (to_string : dboard_id_t → String) (s : String)
    (rx_id tx_id : dboard_id_t) (max_freq : double) (name : Option String)
    (val : wax.obj) :
    ((basic_rx.mk_ctor ⟨s, rx_id, tx_id⟩ max_freq).rx_get to_string
        (request SUBDEV_PROP_QUADRATURE name) val = .ok (.bool true) ↔ s = "AB")
    ∧ ((basic_rx.mk_ctor ⟨s, rx_id, tx_id⟩ max_freq).rx_get to_string
        (request SUBDEV_PROP_QUADRATURE name) val = .ok (.bool false) ↔ s ≠ "AB")
    ∧ (basic_rx.mk_ctor ⟨"A", rx_id, tx_id⟩ max_freq).rx_get to_string
        (request SUBDEV_PROP_QUADRATURE name) val = .ok (.bool false)
    ∧ (basic_rx.mk_ctor ⟨"B", rx_id, tx_id⟩ max_freq).rx_get to_string
        (request SUBDEV_PROP_QUADRATURE name) val = .ok (.bool false) := by
  have key : ∀ t : String, (basic_rx.mk_ctor ⟨t, rx_id, tx_id⟩ max_freq).rx_get to_string
      (request SUBDEV_PROP_QUADRATURE name) val = .ok (.bool (t == "AB")) := by
    intro t
    rw [basic_rx.rx_get_request]
    rfl
  refine ⟨?_, ?_, ?_, ?_⟩
  · rw [key]
    by_cases h : s = "AB" <;> simp [h]
  · rw [key]
    by_cases h : s = "AB" <;> simp [h]
  · rw [key]; rfl
  · rw [key]; rfl

/-- C3: on a transmit provider, for every sub-device name and every ceiling,
Get(quadrature-flag) returns true. -/
theorem C3_tx_quadrature_true (to_string : dboard_id_t → String) (s : String)
    (rx_id tx_id : dboard_id_t) (max_freq : double) (name : Option String)
    (val : wax.obj) :
    (basic_tx.mk_ctor ⟨s, rx_id, tx_id⟩ max_freq).tx_get to_string
      (request SUBDEV_PROP_QUADRATURE name) val = .ok (.bool true) := by
  rw [basic_tx.tx_get_request]
  rfl

/-- C4: on both providers Set(gain, x) succeeds exactly when the float `x`
equals 0.0 (it stands for the number zero, which is what the comparison
`x == float(0)` tests), and for every other `x` it fails with the assertion
failure; it never fails with the read-only failure. -/
theorem C4_set_gain_only_zero (to_string : dboard_id_t → String) (rx : basic_rx)
    (tx : basic_tx) (name : Option String) (x : float) :
    (((rx.rx_set to_string (request SUBDEV_PROP_GAIN name) (.float x)).1 = .ok ()
        ↔ x.toRat? = some 0)
      ∧ ((rx.rx_set to_string (request SUBDEV_PROP_GAIN name) (.float x)).1
          = .error (.assert_error "val.as<float>() == float(0)") ↔ x.toRat? ≠ some 0)
      ∧ (∀ msg, (rx.rx_set to_string (request SUBDEV_PROP_GAIN name) (.float x)).1
          ≠ .error (.runtime_error msg))
      ∧ (rx.rx_set to_string (request SUBDEV_PROP_GAIN name) (.float float.zero)).1
          = .ok ())
    ∧ (((tx.tx_set to_string (request SUBDEV_PROP_GAIN name) (.float x)).1 = .ok ()
        ↔ x.toRat? = some 0)
      ∧ ((tx.tx_set to_string (request SUBDEV_PROP_GAIN name) (.float x)).1
          = .error (.assert_error "val.as<float>() == float(0)") ↔ x.toRat? ≠ some 0)
      ∧ (∀ msg, (tx.tx_set to_string (request SUBDEV_PROP_GAIN name) (.float x)).1
          ≠ .error (.runtime_error msg))
      ∧ (tx.tx_set to_string (request SUBDEV_PROP_GAIN name) (.float float.zero)).1
          = .ok ()) := by
  have hrx : ∀ y : float,
      (rx.rx_set to_string (request SUBDEV_PROP_GAIN name) (.float y)).1
        = ASSERT_THROW "val.as<float>() == float(0)" (float.eq y float.zero) := by
    intro y; rw [basic_rx.rx_set_request]; rfl
  have htx : ∀ y : float,
      (tx.tx_set to_string (request SUBDEV_PROP_GAIN name) (.float y)).1
        = ASSERT_THROW "val.as<float>() == float(0)" (float.eq y float.zero) := by
    intro y; rw [basic_tx.tx_set_request]; rfl
  have hz : float.eq float.zero float.zero = true := by decide
  have ht : x.toRat? = some 0 ↔ float.eq x float.zero = true :=
    (float.eq_zero_iff_toRat x).symm
  rw [hrx x, htx x, hrx float.zero, htx float.zero, hz]
  cases h : float.eq x float.zero <;> simp [ASSERT_THROW, ht, h]

/-- C5: on both providers Set(antenna, s) succeeds exactly when the string
`s` is empty, and for every non-empty `s` it fails with the assertion
failure; it never fails with the read-only failure. -/
theorem C5_set_antenna_only_empty (to_string : dboard_id_t → String) (rx : basic_rx)
    (tx : basic_tx) (name : Option String) (s : String) :
    (((rx.rx_set to_string (request SUBDEV_PROP_ANTENNA name) (.string s)).1 = .ok ()
        ↔ s = "")
      ∧ ((rx.rx_set to_string (request SUBDEV_PROP_ANTENNA name) (.string s)).1
          = .error (.assert_error "val.as<std::string>() == std::string(\"\")")
            ↔ s ≠ "")
      ∧ (∀ msg, (rx.rx_set to_string (request SUBDEV_PROP_ANTENNA name) (.string s)).1
          ≠ .error (.runtime_error msg)))
    ∧ (((tx.tx_set to_string (request SUBDEV_PROP_ANTENNA name) (.string s)).1 = .ok ()
        ↔ s = "")
      ∧ ((tx.tx_set to_string (request SUBDEV_PROP_ANTENNA name) (.string s)).1
          = .error (.assert_error "val.as<std::string>() == std::string(\"\")")
            ↔ s ≠ "")
      ∧ (∀ msg, (tx.tx_set to_string (request SUBDEV_PROP_ANTENNA name) (.string s)).1
          ≠ .error (.runtime_error msg))) := by
  have hrx : (rx.rx_set to_string (request SUBDEV_PROP_ANTENNA name) (.string s)).1
      = ASSERT_THROW "val.as<std::string>() == std::string(\"\")" (s == "") := by
    rw [basic_rx.rx_set_request]; rfl
  have htx : (tx.tx_set to_string (request SUBDEV_PROP_ANTENNA name) (.string s)).1
      = ASSERT_THROW "val.as<std::string>() == std::string(\"\")" (s == "") := by
    rw [basic_tx.tx_set_request]; rfl
  rw [hrx, htx]
  by_cases h : s = "" <;> simp [ASSERT_THROW, h]

/-- C6: on both providers, for every value `x` (of any shape), Set(frequency,
x) succeeds without raising, and a Get(frequency) issued afterwards on the
provider returns the double 0.0. -/
theorem C6_set_freq_inert (to_string : dboard_id_t → String) (rx : basic_rx)
    (tx : basic_tx) (name name2 : Option String) (x val : wax.obj) :
    ((rx.rx_set to_string (request SUBDEV_PROP_FREQ name) x).1 = .ok ()
      ∧ (rx.rx_set to_string (request SUBDEV_PROP_FREQ name) x).2.rx_get to_string
          (request SUBDEV_PROP_FREQ name2) val = .ok (.double double.zero))
    ∧ ((tx.tx_set to_string (request SUBDEV_PROP_FREQ name) x).1 = .ok ()
      ∧ (tx.tx_set to_string (request SUBDEV_PROP_FREQ name) x).2.tx_get to_string
          (request SUBDEV_PROP_FREQ name2) val = .ok (.double double.zero))
    ∧ double.zero.toRat? = some 0 := by
  rw [basic_rx.rx_set_request, basic_tx.tx_set_request, basic_rx.rx_get_request,
    basic_tx.tx_get_request]
  exact ⟨⟨rfl, rfl⟩, ⟨rfl, rfl⟩, double.toRat_double_zero⟩

/-- C7: on both providers, for every key (each key of the enumeration, and
any other value of the key type as well) and every value, Set fails with the
read-only failure (a runtime error) if and only if the key is none of gain,
antenna and frequency; the failure is then the runtime error whose message
is the fixed text around the hardware identity string of that provider
(`get_rx_id` on the receive provider, `get_tx_id` on the transmit provider),
so the message contains that string.  In particular Set(iq-swapped-flag, v)
fails this way for every `v`. -/
theorem C7_set_read_only (to_string : dboard_id_t → String) (rx : basic_rx)
    (tx : basic_tx) (k : subdev_prop_t) (name : Option String) (v : wax.obj) :
    (((∃ msg, (rx.rx_set to_string (request k name) v).1 = .error (.runtime_error msg))
        ↔ (k ≠ SUBDEV_PROP_GAIN ∧ k ≠ SUBDEV_PROP_ANTENNA ∧ k ≠ SUBDEV_PROP_FREQ))
      ∧ (∀ msg, (rx.rx_set to_string (request k name) v).1 = .error (.runtime_error msg) →
          msg = "Error: trying to set read-only property on " ++ to_string rx.get_rx_id
                  ++ " subdev"
          ∧ ∃ before after : String, msg = before ++ to_string rx.get_rx_id ++ after)
      ∧ (rx.rx_set to_string (request SUBDEV_PROP_IQ_SWAPPED name) v).1
          = .error (.runtime_error ("Error: trying to set read-only property on "
              ++ to_string rx.get_rx_id ++ " subdev")))
    ∧ (((∃ msg, (tx.tx_set to_string (request k name) v).1 = .error (.runtime_error msg))
        ↔ (k ≠ SUBDEV_PROP_GAIN ∧ k ≠ SUBDEV_PROP_ANTENNA ∧ k ≠ SUBDEV_PROP_FREQ))
      ∧ (∀ msg, (tx.tx_set to_string (request k name) v).1 = .error (.runtime_error msg) →
          msg = "Error: trying to set read-only property on " ++ to_string tx.get_tx_id
                  ++ " subdev"
          ∧ ∃ before after : String, msg = before ++ to_string tx.get_tx_id ++ after)
      ∧ (tx.tx_set to_string (request SUBDEV_PROP_IQ_SWAPPED name) v).1
          = .error (.runtime_error ("Error: trying to set read-only property on "
              ++ to_string tx.get_tx_id ++ " subdev"))) := by
  have hrx := basic_rx.rx_set_runtime_error_iff to_string rx k v
  have htx := basic_tx.tx_set_runtime_error_iff to_string tx k v
  rw [basic_rx.rx_set_request, basic_tx.tx_set_request, basic_rx.rx_set_request,
    basic_tx.tx_set_request]
  refine ⟨⟨⟨?_, ?_⟩, ?_, rfl⟩, ⟨⟨?_, ?_⟩, ?_, rfl⟩⟩
  · rintro ⟨msg, h⟩; exact ((hrx msg).1 h).1
  · intro h; exact ⟨_, (hrx _).2 ⟨h, rfl⟩⟩
  · intro msg h
    exact ⟨((hrx msg).1 h).2, "Error: trying to set read-only property on ", " subdev",
      ((hrx msg).1 h).2⟩
  · rintro ⟨msg, h⟩; exact ((htx msg).1 h).1
  · intro h; exact ⟨_, (htx _).2 ⟨h, rfl⟩⟩
  · intro msg h
    exact ⟨((htx msg).1 h).2, "Error: trying to set read-only property on ", " subdev",
      ((htx msg).1 h).2⟩

/-- C8: Get(name) on a receive provider with hardware id string `i` (the
string `to_string` gives for its receive id) and sub-device name `s` returns
exactly `i` followed by " - " followed by `s`; on the low-frequency receive
provider with sub-device "AB" this is `i` followed by " - AB"; Get(name) on
a transmit provider returns exactly its id string with no suffix. -/
theorem C8_get_name (to_string : dboard_id_t → String) (s : String)
    (rx_id tx_id : dboard_id_t) (max_freq : double) (name : Option String)
    (val : wax.obj) :
    (basic_rx.mk_ctor ⟨s, rx_id, tx_id⟩ max_freq).rx_get to_string
        (request SUBDEV_PROP_NAME name) val = .ok (.string (to_string rx_id ++ " - " ++ s))
    ∧ (make_lf_rx ⟨"AB", rx_id, tx_id⟩).get to_string
        (request SUBDEV_PROP_NAME name) val = .ok (.string (to_string rx_id ++ " - AB"))
    ∧ (basic_tx.mk_ctor ⟨s, rx_id, tx_id⟩ max_freq).tx_get to_string
        (request SUBDEV_PROP_NAME name) val = .ok (.string (to_string tx_id)) := by
  refine ⟨?_, ?_, ?_⟩
  · rw [basic_rx.rx_get_request]; rfl
  · have h : to_string rx_id ++ " - AB" = to_string rx_id ++ " - " ++ "AB" := by
      rw [String.append_assoc]; rfl
    rw [h]
    show (basic_rx.mk_ctor ⟨"AB", rx_id, tx_id⟩ double.lit_32e6).rx_get to_string
        (request SUBDEV_PROP_NAME name) val = _
    rw [basic_rx.rx_get_request]; rfl
  · rw [basic_tx.tx_get_request]; rfl

/-- C9: on both providers, for every ceiling and sub-device name, Get returns
the fixed values of the capability table: enumerate-other-properties is the
empty sequence, gain is the float 0.0, gain-range is (min 0, max 0, step 0),
gain-names is the empty sequence, frequency is the double 0.0, antenna is
the empty string, antenna-names is the sequence whose only element is the
empty string, and the iq-swapped, spectrum-inverted and use-lo-offset flags
are false. -/
theorem C9_fixed_capabilities (to_string : dboard_id_t → String) (rx : basic_rx)
    (tx : basic_tx) (name : Option String) (val : wax.obj) :
    (rx.rx_get to_string (request SUBDEV_PROP_OTHERS name) val = .ok (.prop_names [])
      ∧ rx.rx_get to_string (request SUBDEV_PROP_GAIN name) val = .ok (.float float.zero)
      ∧ rx.rx_get to_string (request SUBDEV_PROP_GAIN_RANGE name) val
          = .ok (.gain_range { min := float.zero, max := float.zero, step := float.zero })
      ∧ rx.rx_get to_string (request SUBDEV_PROP_GAIN_NAMES name) val = .ok (.prop_names [])
      ∧ rx.rx_get to_string (request SUBDEV_PROP_FREQ name) val = .ok (.double double.zero)
      ∧ rx.rx_get to_string (request SUBDEV_PROP_ANTENNA name) val = .ok (.string "")
      ∧ rx.rx_get to_string (request SUBDEV_PROP_ANTENNA_NAMES name) val
          = .ok (.prop_names [""])
      ∧ rx.rx_get to_string (request SUBDEV_PROP_IQ_SWAPPED name) val = .ok (.bool false)
      ∧ rx.rx_get to_string (request SUBDEV_PROP_SPECTRUM_INVERTED name) val
          = .ok (.bool false)
      ∧ rx.rx_get to_string (request SUBDEV_PROP_USE_LO_OFFSET name) val
          = .ok (.bool false))
    ∧ (tx.tx_get to_string (request SUBDEV_PROP_OTHERS name) val = .ok (.prop_names [])
      ∧ tx.tx_get to_string (request SUBDEV_PROP_GAIN name) val = .ok (.float float.zero)
      ∧ tx.tx_get to_string (request SUBDEV_PROP_GAIN_RANGE name) val
          = .ok (.gain_range { min := float.zero, max := float.zero, step := float.zero })
      ∧ tx.tx_get to_string (request SUBDEV_PROP_GAIN_NAMES name) val = .ok (.prop_names [])
      ∧ tx.tx_get to_string (request SUBDEV_PROP_FREQ name) val = .ok (.double double.zero)
      ∧ tx.tx_get to_string (request SUBDEV_PROP_ANTENNA name) val = .ok (.string "")
      ∧ tx.tx_get to_string (request SUBDEV_PROP_ANTENNA_NAMES name) val
          = .ok (.prop_names [""])
      ∧ tx.tx_get to_string (request SUBDEV_PROP_IQ_SWAPPED name) val = .ok (.bool false)
      ∧ tx.tx_get to_string (request SUBDEV_PROP_SPECTRUM_INVERTED name) val
          = .ok (.bool false)
      ∧ tx.tx_get to_string (request SUBDEV_PROP_USE_LO_OFFSET name) val
          = .ok (.bool false))
    ∧ float.zero.toRat? = some 0 ∧ double.zero.toRat? = some 0 := by
  simp only [basic_rx.rx_get_request, basic_tx.tx_get_request]
  exact ⟨⟨rfl, rfl, rfl, rfl, rfl, rfl, rfl, rfl, rfl, rfl⟩,
    ⟨rfl, rfl, rfl, rfl, rfl, rfl, rfl, rfl, rfl, rfl⟩, float.toRat_float_zero,
    double.toRat_double_zero⟩

/-- C10: Get is total over the closed key enumeration: for each of the
thirteen keys, on the receive and on the transmit provider, there is exactly
one answer such that, whatever the output held before the call, Get raises
nothing and the output holds that answer after it; no key of the enumeration
falls through the dispatch leaving the output as it was. -/
theorem C10_get_total_on_enumeration (to_string : dboard_id_t → String)
    (rx : basic_rx) (tx : basic_tx) (k : subdev_prop_t)
    (hk : k ∈ subdev_prop_t.enumerators) (name : Option String) :
    (∃! answer, ∀ val, rx.rx_get to_string (request k name) val = .ok answer)
    ∧ (∃! answer, ∀ val, tx.tx_get to_string (request k name) val = .ok answer) := by
  have uniq : ∀ (f : wax.obj → Except exception wax.obj) (a : wax.obj),
      (∀ val, f val = .ok a) → ∃! answer, ∀ val, f val = .ok answer := by
    intro f a h
    refine ⟨a, h, ?_⟩
    intro b hb
    have := (hb .empty).symm.trans (h .empty)
    exact Except.ok.inj this
  simp only [basic_rx.rx_get_request, basic_tx.tx_get_request]
  simp only [subdev_prop_t.enumerators, List.mem_cons, List.mem_singleton,
    List.mem_nil_iff, or_false] at hk
  rcases hk with h | h | h | h | h | h | h | h | h | h | h | h | h <;> subst h <;>
    exact ⟨uniq _ _ (fun _ => rfl), uniq _ _ (fun _ => rfl)⟩

/-- Witness of C10 at the gain key on the basic boards. -/
theorem C10_get_total_on_enumeration_witness :
    SUBDEV_PROP_GAIN ∈ subdev_prop_t.enumerators
    ∧ (∃! answer, ∀ val, (basic_rx.mk_ctor ⟨"AB", 1, 0⟩ double.lit_90e9).rx_get
          (fun _ => "Basic RX") (request SUBDEV_PROP_GAIN none) val = .ok answer)
    ∧ (∃! answer, ∀ val, (basic_tx.mk_ctor ⟨"", 1, 0⟩ double.lit_90e9).tx_get
          (fun _ => "Basic RX") (request SUBDEV_PROP_GAIN none) val = .ok answer) :=
  ⟨by decide,
   C10_get_total_on_enumeration (fun _ => "Basic RX")
     (basic_rx.mk_ctor ⟨"AB", 1, 0⟩ double.lit_90e9)
     (basic_tx.mk_ctor ⟨"", 1, 0⟩ double.lit_90e9) SUBDEV_PROP_GAIN (by decide) none⟩

/-! The transmit board against the receive board -/

/-- On a key that is neither the name nor the quadrature flag, `tx_get` and
`rx_get` of two boards with the same `_max_freq` compute the same result. -/
theorem basic_tx.tx_get_eq_rx_get (to_string : dboard_id_t → String) (rx : basic_rx)
    (tx : basic_tx) (hc : tx._max_freq = rx._max_freq) (k : subdev_prop_t)
    (hn : k ≠ SUBDEV_PROP_NAME) (hq : k ≠ SUBDEV_PROP_QUADRATURE) (val : wax.obj) :
    tx.tx_get to_string (.subdev_prop k) val = rx.rx_get to_string (.subdev_prop k) val := by
  cases k <;>
    first
      | exact absurd rfl hn
      | exact absurd rfl hq
      | rfl
      | (simp only [basic_tx.tx_get, basic_rx.rx_get, extract_named_prop,
          wax.obj.as_subdev_prop_t, hc]; rfl)

/-- The outcome of `tx_set` is that of `rx_set` up to the message of the
runtime error: both succeed together and both throw the same assertion or
cast failure together. -/
theorem basic_tx.tx_set_eq_rx_set_of_not_runtime (to_string : dboard_id_t → String)
    (rx : basic_rx) (tx : basic_tx) (k : subdev_prop_t) (v : wax.obj)
    (r : Except exception Unit) (hr : ∀ msg, r ≠ .error (.runtime_error msg)) :
    (tx.tx_set to_string (.subdev_prop k) v).1 = r
      ↔ (rx.rx_set to_string (.subdev_prop k) v).1 = r := by
  cases k
  case SUBDEV_PROP_GAIN => exact Iff.rfl
  case SUBDEV_PROP_ANTENNA => exact Iff.rfl
  case SUBDEV_PROP_FREQ => exact Iff.rfl
  all_goals
    constructor
    · intro h; exact absurd h.symm (hr _)
    · intro h; exact absurd h.symm (hr _)

/-- C11: the transmit provider mirrors the receive provider.  For every
ceiling, whatever the constructor arguments of the two providers, and every
key other than name and quadrature-flag, transmit Get returns the same value
as receive Get; and for every key and every value, transmit Set succeeds,
fails with the assertion (invalid-value) failure, fails with the read-only
runtime error, or fails with a cast failure exactly when receive Set does. -/
theorem C11_tx_mirrors_rx (to_string : dboard_id_t → String)
    (args_rx args_tx : ctor_args_t) (max_freq : double) (k : subdev_prop_t)
    (hn : k ≠ SUBDEV_PROP_NAME) (hq : k ≠ SUBDEV_PROP_QUADRATURE)
    (k2 : subdev_prop_t) (name : Option String) (val v : wax.obj) :
    (basic_tx.mk_ctor args_tx max_freq).tx_get to_string (request k name) val
        = (basic_rx.mk_ctor args_rx max_freq).rx_get to_string (request k name) val
    ∧ (((basic_tx.mk_ctor args_tx max_freq).tx_set to_string (request k2 name) v).1 = .ok ()
        ↔ ((basic_rx.mk_ctor args_rx max_freq).rx_set to_string (request k2 name) v).1
            = .ok ())
    ∧ (∀ text,
        ((basic_tx.mk_ctor args_tx max_freq).tx_set to_string (request k2 name) v).1
            = .error (.assert_error text)
        ↔ ((basic_rx.mk_ctor args_rx max_freq).rx_set to_string (request k2 name) v).1
            = .error (.assert_error text))
    ∧ ((∃ msg, ((basic_tx.mk_ctor args_tx max_freq).tx_set to_string (request k2 name) v).1
            = .error (.runtime_error msg))
        ↔ (∃ msg, ((basic_rx.mk_ctor args_rx max_freq).rx_set to_string
              (request k2 name) v).1 = .error (.runtime_error msg)))
    ∧ (((basic_tx.mk_ctor args_tx max_freq).tx_set to_string (request k2 name) v).1
            = .error .bad_cast
        ↔ ((basic_rx.mk_ctor args_rx max_freq).rx_set to_string (request k2 name) v).1
            = .error .bad_cast) := by
  rw [basic_tx.tx_get_request, basic_rx.rx_get_request, basic_tx.tx_set_request,
    basic_rx.rx_set_request]
  refine ⟨?_, ?_, ?_, ?_, ?_⟩
  · exact basic_tx.tx_get_eq_rx_get to_string _ _ rfl k hn hq val
  · exact basic_tx.tx_set_eq_rx_set_of_not_runtime to_string _ _ k2 v _
      (fun msg h => by cases h)
  · intro text
    exact basic_tx.tx_set_eq_rx_set_of_not_runtime to_string _ _ k2 v _
      (fun msg h => by cases h)
  · constructor
    · rintro ⟨msg, h⟩
      exact ⟨_, (basic_rx.rx_set_runtime_error_iff to_string _ k2 v _).2
        ⟨((basic_tx.tx_set_runtime_error_iff to_string _ k2 v msg).1 h).1, rfl⟩⟩
    · rintro ⟨msg, h⟩
      exact ⟨_, (basic_tx.tx_set_runtime_error_iff to_string _ k2 v _).2
        ⟨((basic_rx.rx_set_runtime_error_iff to_string _ k2 v msg).1 h).1, rfl⟩⟩
  · exact basic_tx.tx_set_eq_rx_set_of_not_runtime to_string _ _ k2 v _
      (fun msg h => by cases h)

/-- Witness of C11 on the low-frequency boards, at the frequency-range key
for Get and the gain key for Set. -/
theorem C11_tx_mirrors_rx_witness :
    SUBDEV_PROP_FREQ_RANGE ≠ SUBDEV_PROP_NAME
    ∧ SUBDEV_PROP_FREQ_RANGE ≠ SUBDEV_PROP_QUADRATURE
    ∧ (basic_tx.mk_ctor ⟨"", 15, 14⟩ double.lit_32e6).tx_get (fun _ => "LF")
          (request SUBDEV_PROP_FREQ_RANGE none) .empty
        = (basic_rx.mk_ctor ⟨"AB", 15, 14⟩ double.lit_32e6).rx_get (fun _ => "LF")
          (request SUBDEV_PROP_FREQ_RANGE none) .empty :=
  ⟨by decide, by decide,
   (C11_tx_mirrors_rx (fun _ => "LF") ⟨"AB", 15, 14⟩ ⟨"", 15, 14⟩ double.lit_32e6
     SUBDEV_PROP_FREQ_RANGE (by decide) (by decide) SUBDEV_PROP_GAIN none .empty
     (.float float.zero)).1⟩

/-! The settable keys -/

/-- Set on the gain key succeeds exactly on a float that compares equal to
`float(0)`. -/
theorem basic_rx.rx_set_gain_ok_iff (to_string : dboard_id_t → String) (self : basic_rx)
    (v : wax.obj) :
    (self.rx_set to_string (.subdev_prop SUBDEV_PROP_GAIN) v).1 = .ok ()
      ↔ ∃ x, v = .float x ∧ float.eq x float.zero = true := by
  cases v <;> simp [basic_rx.rx_set, extract_named_prop, wax.obj.as_subdev_prop_t,
    wax.obj.as_float, ASSERT_THROW, bind, Except.bind]

/-- Set on the gain key succeeds exactly on a float that compares equal to
`float(0)`, transmit side. -/
theorem basic_tx.tx_set_gain_ok_iff (to_string : dboard_id_t → String) (self : basic_tx)
    (v : wax.obj) :
    (self.tx_set to_string (.subdev_prop SUBDEV_PROP_GAIN) v).1 = .ok ()
      ↔ ∃ x, v = .float x ∧ float.eq x float.zero = true := by
  cases v <;> simp [basic_tx.tx_set, extract_named_prop, wax.obj.as_subdev_prop_t,
    wax.obj.as_float, ASSERT_THROW, bind, Except.bind]

/-- Set on the antenna key succeeds exactly on the empty string. -/
theorem basic_rx.rx_set_antenna_ok_iff (to_string : dboard_id_t → String)
    (self : basic_rx) (v : wax.obj) :
    (self.rx_set to_string (.subdev_prop SUBDEV_PROP_ANTENNA) v).1 = .ok ()
      ↔ v = .string "" := by
  cases v <;> simp [basic_rx.rx_set, extract_named_prop, wax.obj.as_subdev_prop_t,
    wax.obj.as_string, ASSERT_THROW, bind, Except.bind]

/-- Set on the antenna key succeeds exactly on the empty string, transmit
side. -/
theorem basic_tx.tx_set_antenna_ok_iff (to_string : dboard_id_t → String)
    (self : basic_tx) (v : wax.obj) :
    (self.tx_set to_string (.subdev_prop SUBDEV_PROP_ANTENNA) v).1 = .ok ()
      ↔ v = .string "" := by
  cases v <;> simp [basic_tx.tx_set, extract_named_prop, wax.obj.as_subdev_prop_t,
    wax.obj.as_string, ASSERT_THROW, bind, Except.bind]

/-- C12, counterexample: on the basic receive and the basic transmit board,
Set(frequency, 32e6) succeeds although Get(frequency) returns 0.0, and the
double 32e6 is not equal to the double 0.0, neither as a value of the
dispatch nor under the comparison `==`. -/
theorem C12_set_freq_accepts_other_value :
    ((basic_rx.mk_ctor ⟨"AB", 1, 0⟩ double.lit_90e9).rx_set (fun _ => "Basic RX")
        (request SUBDEV_PROP_FREQ none) (.double double.lit_32e6)).1 = .ok ()
    ∧ (basic_rx.mk_ctor ⟨"AB", 1, 0⟩ double.lit_90e9).rx_get (fun _ => "Basic RX")
        (request SUBDEV_PROP_FREQ none) .empty = .ok (.double double.zero)
    ∧ ((basic_tx.mk_ctor ⟨"", 1, 0⟩ double.lit_90e9).tx_set (fun _ => "Basic TX")
        (request SUBDEV_PROP_FREQ none) (.double double.lit_32e6)).1 = .ok ()
    ∧ (basic_tx.mk_ctor ⟨"", 1, 0⟩ double.lit_90e9).tx_get (fun _ => "Basic TX")
        (request SUBDEV_PROP_FREQ none) .empty = .ok (.double double.zero)
    ∧ wax.obj.double double.lit_32e6 ≠ wax.obj.double double.zero
    ∧ double.eq double.lit_32e6 double.zero = false
    ∧ double.lit_32e6.toRat? = some 32000000
    ∧ double.zero.toRat? = some 0 := by
  refine ⟨rfl, rfl, rfl, rfl, by decide, by decide, double.toRat_lit_32e6,
    double.toRat_double_zero⟩

/-- C12, amended: on both providers, Set(gain, v) succeeds exactly when `v`
is a float that compares equal (by `==`, under which both signed zeros are
equal) to the float Get(gain) returns, and Set(antenna, v) succeeds exactly
when `v` is the value Get(antenna) returns; Set(frequency, v) succeeds for
every value `v`. -/
theorem C12_settable_accepts (to_string : dboard_id_t → String) (rx : basic_rx)
    (tx : basic_tx) (name name2 : Option String) (v val : wax.obj) :
    (((rx.rx_set to_string (request SUBDEV_PROP_GAIN name) v).1 = .ok ()
        ↔ ∃ x g, v = .float x
            ∧ rx.rx_get to_string (request SUBDEV_PROP_GAIN name2) val = .ok (.float g)
            ∧ float.eq x g = true)
      ∧ ((rx.rx_set to_string (request SUBDEV_PROP_ANTENNA name) v).1 = .ok ()
        ↔ rx.rx_get to_string (request SUBDEV_PROP_ANTENNA name2) val = .ok v)
      ∧ (rx.rx_set to_string (request SUBDEV_PROP_FREQ name) v).1 = .ok ())
    ∧ (((tx.tx_set to_string (request SUBDEV_PROP_GAIN name) v).1 = .ok ()
        ↔ ∃ x g, v = .float x
            ∧ tx.tx_get to_string (request SUBDEV_PROP_GAIN name2) val = .ok (.float g)
            ∧ float.eq x g = true)
      ∧ ((tx.tx_set to_string (request SUBDEV_PROP_ANTENNA name) v).1 = .ok ()
        ↔ tx.tx_get to_string (request SUBDEV_PROP_ANTENNA name2) val = .ok v)
      ∧ (tx.tx_set to_string (request SUBDEV_PROP_FREQ name) v).1 = .ok ()) := by
  simp only [basic_rx.rx_set_request, basic_tx.tx_set_request, basic_rx.rx_get_request,
    basic_tx.tx_get_request]
  have grx : rx.rx_get to_string (.subdev_prop SUBDEV_PROP_GAIN) val
      = .ok (.float float.zero) := rfl
  have gtx : tx.tx_get to_string (.subdev_prop SUBDEV_PROP_GAIN) val
      = .ok (.float float.zero) := rfl
  have arx : rx.rx_get to_string (.subdev_prop SUBDEV_PROP_ANTENNA) val
      = .ok (.string "") := rfl
  have atx : tx.tx_get to_string (.subdev_prop SUBDEV_PROP_ANTENNA) val
      = .ok (.string "") := rfl
  have gain_rhs :
      (∃ x g, v = .float x ∧ (Except.ok (wax.obj.float float.zero) : Except exception wax.obj)
          = .ok (.float g) ∧ float.eq x g = true)
        ↔ ∃ x, v = .float x ∧ float.eq x float.zero = true := by
    constructor
    · rintro ⟨x, g, hv, hg, he⟩
      have hg2 : float.zero = g := by
        have := Except.ok.inj hg
        exact wax.obj.float.inj this
      exact ⟨x, hv, by rw [hg2]; exact he⟩
    · rintro ⟨x, hv, he⟩
      exact ⟨x, float.zero, hv, rfl, he⟩
  have ant_rhs : (Except.ok (wax.obj.string "") : Except exception wax.obj) = .ok v
      ↔ v = .string "" := by
    constructor
    · intro h; exact (Except.ok.inj h).symm
    · intro h; rw [h]
  rw [grx, gtx, arx, atx, gain_rhs, ant_rhs]
  exact ⟨⟨basic_rx.rx_set_gain_ok_iff to_string rx v,
      basic_rx.rx_set_antenna_ok_iff to_string rx v, rfl⟩,
    ⟨basic_tx.tx_set_gain_ok_iff to_string tx v,
      basic_tx.tx_set_antenna_ok_iff to_string tx v, rfl⟩⟩

/-! Set leaves the object as it was -/

/-- One Set call returns the provider it was issued on. -/
theorem dboard_base.set_snd (to_string : dboard_id_t → String) (board : dboard_base)
    (key_ val : wax.obj) : (board.set to_string key_ val).2 = board := by
  cases board <;> rfl

/-- A sequence of Set calls returns the provider it was issued on. -/
theorem dboard_base.set_all_eq (to_string : dboard_id_t → String) (board : dboard_base)
    (calls : List (wax.obj × wax.obj)) : board.set_all to_string calls = board := by
  induction calls generalizing board with
  | nil => rfl
  | cons call rest ih =>
      obtain ⟨key_, val⟩ := call
      show dboard_base.set_all to_string (board.set to_string key_ val).2 rest = board
      rw [dboard_base.set_snd, ih]

/-- C13: the stored frequency ceiling is immutable after construction.  On
the receive and on the transmit provider, for every key and every value, a
Set call, whether it succeeds or throws, returns the object with the same
ceiling and the same constructor arguments; hence after any finite sequence
of Set calls on a provider, every Get returns what it returned before the
sequence. -/
theorem C13_set_leaves_state (to_string : dboard_id_t → String) (rx : basic_rx)
    (tx : basic_tx) (board : dboard_base) (key_ v : wax.obj)
    (calls : List (wax.obj × wax.obj)) (key2 val : wax.obj) :
    ((rx.rx_set to_string key_ v).2._max_freq = rx._max_freq
      ∧ (rx.rx_set to_string key_ v).2 = rx)
    ∧ ((tx.tx_set to_string key_ v).2._max_freq = tx._max_freq
      ∧ (tx.tx_set to_string key_ v).2 = tx)
    ∧ board.set_all to_string calls = board
    ∧ (board.set_all to_string calls).get to_string key2 val
        = board.get to_string key2 val := by
  refine ⟨⟨rfl, rfl⟩, ⟨rfl, rfl⟩, dboard_base.set_all_eq to_string board calls, ?_⟩
  rw [dboard_base.set_all_eq]

/-- C14: for a key value outside the thirteen-key enumeration, Get on either
provider raises no failure and leaves the output as it was before the
call. -/
theorem C14_get_unlisted_no_op (to_string : dboard_id_t → String) (rx : basic_rx)
    (tx : basic_tx) (k : subdev_prop_t) (hk : k ∉ subdev_prop_t.enumerators)
    (name : Option String) (val : wax.obj) :
    rx.rx_get to_string (request k name) val = .ok val
    ∧ tx.tx_get to_string (request k name) val = .ok val := by
  rw [basic_rx.rx_get_request, basic_tx.tx_get_request]
  cases k
  case unlisted raw => exact ⟨rfl, rfl⟩
  all_goals exact absurd (by decide) hk

/-- Witness of C14 at the key value 99 with the output holding a string. -/
theorem C14_get_unlisted_no_op_witness :
    subdev_prop_t.unlisted 99 ∉ subdev_prop_t.enumerators
    ∧ (basic_rx.mk_ctor ⟨"A", 1, 0⟩ double.lit_90e9).rx_get (fun _ => "Basic RX")
        (request (subdev_prop_t.unlisted 99) none) (.string "before")
          = .ok (.string "before")
    ∧ (basic_tx.mk_ctor ⟨"", 1, 0⟩ double.lit_90e9).tx_get (fun _ => "Basic TX")
        (request (subdev_prop_t.unlisted 99) none) (.string "before")
          = .ok (.string "before") :=
  ⟨by decide,
   (C14_get_unlisted_no_op (fun _ => "Basic RX")
      (basic_rx.mk_ctor ⟨"A", 1, 0⟩ double.lit_90e9)
      (basic_tx.mk_ctor ⟨"", 1, 0⟩ double.lit_90e9) (subdev_prop_t.unlisted 99)
      (by decide) none (.string "before")).1,
   (C14_get_unlisted_no_op (fun _ => "Basic TX")
      (basic_rx.mk_ctor ⟨"A", 1, 0⟩ double.lit_90e9)
      (basic_tx.mk_ctor ⟨"", 1, 0⟩ double.lit_90e9) (subdev_prop_t.unlisted 99)
      (by decide) none (.string "before")).2⟩

/-! Ordering of the frequency range -/

/-- Unary minus negates the number a finite `double` stands for and keeps
an infinity or NaN what it is. -/
theorem double.toRat_neg (x : double) :
    x.neg.toRat? = x.toRat?.map (fun a => -a) := by
  obtain ⟨s, e, f⟩ := x
  by_cases h : e.val = 2047
  · simp [double.toRat?, double.neg, h]
  · cases s <;> simp [double.toRat?, double.neg, h]

/-- Unary minus keeps the NaN test. -/
theorem double.isNaN_neg (x : double) : x.neg.isNaN = x.isNaN := rfl

/-- The number `double(0)` stands for, in the form the comparisons use. -/
theorem double.zero_facts : double.zero.isNaN = false ∧ double.zero.toRat? = some 0 := by
  refine ⟨by decide, ?_⟩
  simp [double.toRat?, double.zero]

/-- A `double` above zero is not NaN and is either finite with a positive
value or plus infinity. -/
theorem double.pos_cases (c : double) (h : double.lt double.zero c = true) :
    c.isNaN = false
      ∧ ((∃ b : ℚ, c.toRat? = some b ∧ 0 < b) ∨ (c.toRat? = none ∧ c.sign = false)) := by
  obtain ⟨hz, hz0⟩ := double.zero_facts
  unfold double.lt at h
  rw [hz, hz0] at h
  cases hn : c.isNaN
  · refine ⟨rfl, ?_⟩
    rw [hn] at h
    cases hc : c.toRat? with
    | none =>
        rw [hc] at h
        right
        refine ⟨rfl, ?_⟩
        simpa using h
    | some b =>
        rw [hc] at h
        left
        exact ⟨b, rfl, by simpa using h⟩
  · rw [hn] at h
    simp at h

/-- Below a positive `double` lies its negation. -/
theorem double.neg_lt_self_of_pos (c : double) (h : double.lt double.zero c = true) :
    double.lt c.neg c = true := by
  obtain ⟨hn, hcase⟩ := double.pos_cases c h
  rcases hcase with ⟨b, hb, hpos⟩ | ⟨hnone, hs⟩
  · have hneg : c.neg.toRat? = some (-b) := by rw [double.toRat_neg, hb]; rfl
    unfold double.lt
    rw [double.isNaN_neg, hn, hneg, hb]
    simp only [Bool.or_self, Bool.false_eq_true, if_false, decide_eq_true_eq]
    linarith
  · have hneg : c.neg.toRat? = none := by rw [double.toRat_neg, hnone]; rfl
    have hsn : c.neg.sign = true := by
      show (!c.sign) = true
      rw [hs]; rfl
    unfold double.lt
    rw [double.isNaN_neg, hn, hneg, hnone, hsn, hs]
    rfl

/-- No `double` is at once at least a positive `c` and at most `-c`. -/
theorem double.not_between_of_pos (c : double) (h : double.lt double.zero c = true)
    (x : double) : ¬ (double.le c x = true ∧ double.le x c.neg = true) := by
  obtain ⟨hn, hcase⟩ := double.pos_cases c h
  rintro ⟨h1, h2⟩
  unfold double.le at h1 h2
  rw [double.isNaN_neg] at h2
  rw [hn] at h1 h2
  cases hx : x.isNaN
  · rw [hx] at h1 h2
    simp only [Bool.or_self, Bool.false_eq_true, if_false] at h1 h2
    have hsn : c.neg.sign = !c.sign := rfl
    rcases hcase with ⟨b, hb, hpos⟩ | ⟨hnone, hs⟩
    · have hneg : c.neg.toRat? = some (-b) := by rw [double.toRat_neg, hb]; rfl
      rw [hb] at h1
      rw [hneg] at h2
      cases hxr : x.toRat? with
      | none =>
          rw [hxr] at h1 h2
          simp only [Bool.not_eq_true_eq_eq_false] at h1 h2
          rw [h1] at h2
          exact Bool.false_ne_true h2
      | some a =>
          rw [hxr] at h1 h2
          simp only [decide_eq_true_eq] at h1 h2
          linarith
    · have hneg : c.neg.toRat? = none := by rw [double.toRat_neg, hnone]; rfl
      rw [hnone] at h1
      rw [hneg, hsn, hs] at h2
      cases hxr : x.toRat? with
      | none =>
          rw [hxr] at h1 h2
          rw [hs] at h1
          cases hxs : x.sign
          · rw [hxs] at h2; simp at h2
          · rw [hxs] at h1; simp at h1
      | some a =>
          rw [hxr] at h1
          rw [hs] at h1
          exact Bool.false_ne_true h1
  · rw [hx] at h1
    simp at h1

/-- The `double` zero lies in the span from `-c` to `+c` of a positive `c`. -/
theorem double.zero_in_span_of_pos (c : double) (h : double.lt double.zero c = true) :
    double.le c.neg double.zero = true ∧ double.le double.zero c = true := by
  obtain ⟨hn, hcase⟩ := double.pos_cases c h
  obtain ⟨hz, hz0⟩ := double.zero_facts
  unfold double.le
  rw [double.isNaN_neg, hn, hz, hz0]
  rcases hcase with ⟨b, hb, hpos⟩ | ⟨hnone, hs⟩
  · have hneg : c.neg.toRat? = some (-b) := by rw [double.toRat_neg, hb]; rfl
    rw [hneg, hb]
    simp only [Bool.or_self, Bool.false_eq_true, if_false, decide_eq_true_eq]
    constructor <;> linarith
  · have hneg : c.neg.toRat? = none := by rw [double.toRat_neg, hnone]; rfl
    have hsn : c.neg.sign = true := by
      show (!c.sign) = true
      rw [hs]; rfl
    rw [hneg, hnone, hsn, hs]
    exact ⟨rfl, rfl⟩

/-- The preset `90e9` is above zero. -/
theorem double.lit_90e9_pos : double.lt double.zero double.lit_90e9 = true := by
  have hn : double.lit_90e9.isNaN = false := by decide
  unfold double.lt
  rw [double.zero_facts.1, double.zero_facts.2, hn, double.toRat_lit_90e9]
  simp

/-- The preset `32e6` is above zero. -/
theorem double.lit_32e6_pos : double.lt double.zero double.lit_32e6 = true := by
  have hn : double.lit_32e6.isNaN = false := by decide
  unfold double.lt
  rw [double.zero_facts.1, double.zero_facts.2, hn, double.toRat_lit_32e6]
  simp

/-- C15: for every positive ceiling `c`, on the receive and on the transmit
provider, the range Get(frequency-range) returns has minimum `+c` and
maximum `-c`, the maximum is strictly below the minimum, and no double `x`
satisfies min <= x <= max; the frequency 0.0 that Get(frequency) reports
lies in the span from `-c` to `+c` but not between the returned minimum and
maximum taken in that order.  Both presets 90e9 and 32e6 are positive. -/
theorem C15_freq_range_inverted (to_string : dboard_id_t → String)
    (args_rx args_tx : ctor_args_t) (c : double) (hc : double.lt double.zero c = true)
    (name : Option String) (val : wax.obj) :
    (∃ r : freq_range_t,
        (basic_rx.mk_ctor args_rx c).rx_get to_string
            (request SUBDEV_PROP_FREQ_RANGE name) val = .ok (.freq_range r)
        ∧ r.min = c ∧ r.max = c.neg
        ∧ double.lt r.max r.min = true
        ∧ (∀ x : double, ¬ (double.le r.min x = true ∧ double.le x r.max = true))
        ∧ (basic_rx.mk_ctor args_rx c).rx_get to_string (request SUBDEV_PROP_FREQ name) val
            = .ok (.double double.zero)
        ∧ (double.le c.neg double.zero = true ∧ double.le double.zero c = true)
        ∧ ¬ (double.le r.min double.zero = true ∧ double.le double.zero r.max = true))
    ∧ (∃ r : freq_range_t,
        (basic_tx.mk_ctor args_tx c).tx_get to_string
            (request SUBDEV_PROP_FREQ_RANGE name) val = .ok (.freq_range r)
        ∧ r.min = c ∧ r.max = c.neg
        ∧ double.lt r.max r.min = true
        ∧ (∀ x : double, ¬ (double.le r.min x = true ∧ double.le x r.max = true))
        ∧ (basic_tx.mk_ctor args_tx c).tx_get to_string (request SUBDEV_PROP_FREQ name) val
            = .ok (.double double.zero)
        ∧ (double.le c.neg double.zero = true ∧ double.le double.zero c = true)
        ∧ ¬ (double.le r.min double.zero = true ∧ double.le double.zero r.max = true))
    ∧ double.lt double.zero double.lit_90e9 = true
    ∧ double.lt double.zero double.lit_32e6 = true := by
  simp only [basic_rx.rx_get_request, basic_tx.tx_get_request]
  refine ⟨⟨⟨c, c.neg⟩, rfl, rfl, rfl, double.neg_lt_self_of_pos c hc,
      double.not_between_of_pos c hc, rfl, double.zero_in_span_of_pos c hc,
      double.not_between_of_pos c hc double.zero⟩,
    ⟨⟨c, c.neg⟩, rfl, rfl, rfl, double.neg_lt_self_of_pos c hc,
      double.not_between_of_pos c hc, rfl, double.zero_in_span_of_pos c hc,
      double.not_between_of_pos c hc double.zero⟩,
    double.lit_90e9_pos, double.lit_32e6_pos⟩

/-- Witness of C15 at the preset 32e6: the range of the low-frequency
receive board has its maximum below its minimum. -/
theorem C15_freq_range_inverted_witness :
    double.lt double.zero double.lit_32e6 = true
    ∧ ∃ r : freq_range_t,
        (basic_rx.mk_ctor ⟨"AB", 15, 14⟩ double.lit_32e6).rx_get (fun _ => "LF RX")
            (request SUBDEV_PROP_FREQ_RANGE none) .empty = .ok (.freq_range r)
        ∧ r.min = double.lit_32e6 ∧ r.max = double.lit_32e6.neg
        ∧ double.lt r.max r.min = true :=
  ⟨double.lit_32e6_pos,
   match (C15_freq_range_inverted (fun _ => "LF RX") ⟨"AB", 15, 14⟩ ⟨"", 15, 14⟩
      double.lit_32e6 double.lit_32e6_pos none .empty).1 with
   | ⟨r, h1, h2, h3, h4, _⟩ => ⟨r, h1, h2, h3, h4⟩⟩

/-- C16, counterexample: the name answer of a receive provider does not
depend only on the sub-device name fixed at construction.  The basic receive
board (hardware id 0x0001) and the low-frequency receive board (hardware id
0x000f), both constructed with the sub-device name "AB" and asked with the
same request, return different names, because the answer also carries the
hardware id string. -/
theorem C16_name_differs_at_equal_subdev_name :
    (make_basic_rx ⟨"AB", 0x0001, 0x0000⟩).get
        (fun id => if id = 0x0001 then "0x0001" else "0x000f")
        (request SUBDEV_PROP_NAME none) .empty = .ok (.string "0x0001 - AB")
    ∧ (make_lf_rx ⟨"AB", 0x000f, 0x000e⟩).get
        (fun id => if id = 0x0001 then "0x0001" else "0x000f")
        (request SUBDEV_PROP_NAME none) .empty = .ok (.string "0x000f - AB")
    ∧ (make_basic_rx ⟨"AB", 0x0001, 0x0000⟩).get
        (fun id => if id = 0x0001 then "0x0001" else "0x000f")
        (request SUBDEV_PROP_NAME none) .empty
      ≠ (make_lf_rx ⟨"AB", 0x000f, 0x000e⟩).get
        (fun id => if id = 0x0001 then "0x0001" else "0x000f")
        (request SUBDEV_PROP_NAME none) .empty := by
  have h1 : (make_basic_rx ⟨"AB", 0x0001, 0x0000⟩).get
      (fun id => if id = 0x0001 then "0x0001" else "0x000f")
      (request SUBDEV_PROP_NAME none) .empty = .ok (.string "0x0001 - AB") := by
    show Except.ok (wax.obj.string ("0x0001" ++ " - " ++ "AB")) = _
    have : "0x0001" ++ " - " ++ "AB" = "0x0001 - AB" := by decide
    rw [this]
  have h2 : (make_lf_rx ⟨"AB", 0x000f, 0x000e⟩).get
      (fun id => if id = 0x0001 then "0x0001" else "0x000f")
      (request SUBDEV_PROP_NAME none) .empty = .ok (.string "0x000f - AB") := by
    show Except.ok (wax.obj.string ("0x000f" ++ " - " ++ "AB")) = _
    have : "0x000f" ++ " - " ++ "AB" = "0x000f - AB" := by decide
    rw [this]
  refine ⟨h1, h2, ?_⟩
  rw [h1, h2]
  intro h
  have hs : "0x0001 - AB" = "0x000f - AB" := wax.obj.string.inj (Except.ok.inj h)
  exact absurd hs (by decide)

/-- C16, amended: the sub-device name paired with the key in a request has
no influence on the outcome.  On both providers, for every key, every value
and any two request names (present or absent), Get returns the same value
and Set has the same outcome, failure kind and message included, and
returns the same object.  On the receive provider the quadrature-flag answer
depends only on the sub-device name fixed at construction, whatever the
ceiling and the hardware ids; the name answer depends only on that
sub-device name and on the hardware id string: two receive providers with
the same construction sub-device name whose receive ids have the same id
string give the same name, whatever their ceilings, their ids and the
request names. -/
theorem C16_request_name_irrelevant (to_string : dboard_id_t → String) (rx : basic_rx)
    (tx : basic_tx) (k : subdev_prop_t) (n1 n2 : Option String) (v val : wax.obj)
    (s : String) (rx_id rx_id2 tx_id tx_id2 : dboard_id_t) (c c2 : double)
    (hid : to_string rx_id = to_string rx_id2) :
    rx.rx_get to_string (request k n1) val = rx.rx_get to_string (request k n2) val
    ∧ tx.tx_get to_string (request k n1) val = tx.tx_get to_string (request k n2) val
    ∧ rx.rx_set to_string (request k n1) v = rx.rx_set to_string (request k n2) v
    ∧ tx.tx_set to_string (request k n1) v = tx.tx_set to_string (request k n2) v
    ∧ rx.rx_get to_string (request SUBDEV_PROP_NAME n1) val
        = .ok (.string (to_string rx.get_rx_id ++ " - " ++ rx.get_subdev_name))
    ∧ rx.rx_get to_string (request SUBDEV_PROP_QUADRATURE n1) val
        = .ok (.bool (rx.get_subdev_name == "AB"))
    ∧ (basic_rx.mk_ctor ⟨s, rx_id, tx_id⟩ c).rx_get to_string
          (request SUBDEV_PROP_QUADRATURE n1) val
        = (basic_rx.mk_ctor ⟨s, rx_id2, tx_id2⟩ c2).rx_get to_string
          (request SUBDEV_PROP_QUADRATURE n2) val
    ∧ (basic_rx.mk_ctor ⟨s, rx_id, tx_id⟩ c).rx_get to_string
          (request SUBDEV_PROP_NAME n1) val
        = (basic_rx.mk_ctor ⟨s, rx_id2, tx_id2⟩ c2).rx_get to_string
          (request SUBDEV_PROP_NAME n2) val := by
  have hname : ∀ (i t : dboard_id_t) (m : double) (n : Option String),
      (basic_rx.mk_ctor ⟨s, i, t⟩ m).rx_get to_string (request SUBDEV_PROP_NAME n) val
        = .ok (.string (to_string i ++ " - " ++ s)) := by
    intro i t m n
    rw [basic_rx.rx_get_request]
    rfl
  refine ⟨?_, ?_, ?_, ?_, ?_, ?_, ?_, ?_⟩
  case refine_8 => rw [hname, hname, hid]
  all_goals simp only [basic_rx.rx_get_request, basic_tx.tx_get_request,
    basic_rx.rx_set_request, basic_tx.tx_set_request]
  all_goals rfl

/-- Witness of C16 amended: the receive ids 1 and 15 with one and the same
id string, the construction name "AB", two ceilings and two request names. -/
theorem C16_request_name_irrelevant_witness :
    (fun _ : dboard_id_t => "RX") 1 = (fun _ : dboard_id_t => "RX") 15
    ∧ (basic_rx.mk_ctor ⟨"AB", 1, 0⟩ double.lit_90e9).rx_get (fun _ => "RX")
          (request SUBDEV_PROP_NAME (some "A")) .empty
        = (basic_rx.mk_ctor ⟨"AB", 15, 14⟩ double.lit_32e6).rx_get (fun _ => "RX")
          (request SUBDEV_PROP_NAME (some "B")) .empty :=
  ⟨rfl,
   (C16_request_name_irrelevant (fun _ => "RX")
      (basic_rx.mk_ctor ⟨"AB", 1, 0⟩ double.lit_90e9)
      (basic_tx.mk_ctor ⟨"", 1, 0⟩ double.lit_90e9) SUBDEV_PROP_NAME (some "A") (some "B")
      .empty .empty "AB" 1 15 0 14 double.lit_90e9 double.lit_32e6 rfl).2.2.2.2.2.2.2⟩

end uhd
